import Mathlib

/-!
Verification of the telemetry ingestion engine in `src/Server.py`.

The Python server is shallowly embedded below: machine integers become
`Nat`/`Int` with explicit `% 2 ^ w` where the code masks, the per-device
mutable dictionary becomes the `DeviceState` structure passed explicitly,
and the receive loop's per-datagram work becomes the pure functions
`parseDatagram`, `arrivalStep`, `drainBuffer`, `sweepDevice`,
`shutdownFlush` and `processAndLogPacket`.  Wall-clock time is modelled as
integer milliseconds; Python floats on a zero-rounding path are replaced by
exact integer arithmetic.
-/

set_option maxRecDepth 10000

/-- `SEQ_MAX = 65536` from Server.py. -/
def SEQ_MAX : Nat := 65536

/-- `WRAP_THRESHOLD = 30000` from Server.py. -/
def WRAP_THRESHOLD : Int := 30000

/-- `HEADER_SIZE = struct.calcsize('!HHIB') = 9`. -/
def HEADER_SIZE : Nat := 9

/-- Capacity of the `deque(maxlen=500)` holding processed sequence numbers. -/
def DEQUE_MAXLEN : Nat := 500

/-- `TIMESTAMP_OFFSET = 1764547200` seconds, expressed in milliseconds. -/
def TIMESTAMP_OFFSET_MS : Int := 1764547200000

/-- A buffered packet entry, mirroring the `packet_entry` dictionary built in
`main` (readings are kept as raw 12-byte chunks; their float decoding is
irrelevant to the control flow). -/
structure Entry where
  deviceId : Nat
  seq : Nat
  timestampSent : Nat
  arrivalTime : Int
  latency : Int
  jitter : Int
  duplicate : Bool
  gapDetected : Bool
  gapCount : Nat
  readings : List (List Nat)
  deriving DecidableEq

/-- Per-device mutable state, mirroring `devices_state[device_id]`. -/
structure DeviceState where
  buffer : List Entry
  lastLatency : Int
  lastProcessedSeq : Option Nat
  processedSeqs : List Nat
  lastSeen : Int
  statusAlive : Bool
  received : Nat
  duplicates : Nat
  gaps : Nat
  deriving DecidableEq

/-- Append on a `collections.deque` with a maximum length: the result is the
last `maxlen` elements of `xs ++ [x]`. -/
def dequeAppend (maxlen : Nat) (xs : List Nat) (x : Nat) : List Nat :=
  let ys := xs ++ [x]
  ys.drop (ys.length - maxlen)

/-- Gap classification for a non-duplicate sequence (Server.py lines
101-111): returns `(gap_detected, gap_count)`. -/
def classifySeq (lastSeq : Option Nat) (seq : Nat) : Bool × Nat :=
  match lastSeq with
  | none => (false, 0)
  | some last =>
    let diff : Int := (seq : Int) - (last : Int)
    if diff < -WRAP_THRESHOLD then
      let realDiff : Int := (seq : Int) + (SEQ_MAX : Int) - (last : Int)
      if realDiff > 1 then (true, (realDiff - 1).toNat) else (false, 0)
    else if diff > 1 then (true, (diff - 1).toNat)
    else (false, 0)

/-- `process_and_log_packet` from Server.py (lines 85-132), minus CSV output
and CPU timing: classify the finalized packet as duplicate / gap / plain,
update the per-device counters and sequence state, and return the annotated
entry that would be logged. -/
def processAndLogPacket (s : DeviceState) (p : Entry) : DeviceState × Entry :=
  let s1 : DeviceState := { s with received := s.received + 1 }
  if s1.processedSeqs.contains p.seq then
    ({ s1 with duplicates := s1.duplicates + 1 },
     { p with duplicate := true, gapDetected := false, gapCount := 0 })
  else
    let gd := classifySeq s1.lastProcessedSeq p.seq
    let s2 : DeviceState :=
      { s1 with processedSeqs := dequeAppend DEQUE_MAXLEN s1.processedSeqs p.seq,
                lastProcessedSeq := some p.seq }
    let s3 : DeviceState := if gd.1 then { s2 with gaps := s2.gaps + gd.2 } else s2
    (s3, { p with duplicate := false, gapDetected := gd.1, gapCount := gd.2 })

/-- `compute_checksum`: byte sum masked to 16 bits. -/
def computeChecksum (data : List Nat) : Nat := data.sum % 65536

/-- Big-endian interpretation of a byte list (as `struct.unpack('!...')`). -/
def bytesToNat (bs : List Nat) : Nat := List.foldl (fun acc b => acc * 256 + b) 0 bs

/-- A successfully parsed datagram (header fields plus raw payload). -/
structure Parsed where
  deviceId : Nat
  seq : Nat
  tsSent : Nat
  version : Nat
  msgType : Nat
  payload : List Nat
  deriving DecidableEq

/-- Datagram parsing and checksum verification from `main` (lines 220-238):
too-short datagrams and checksum mismatches are dropped (`continue`), i.e.
return `none`. -/
def parseDatagram (data : List Nat) : Option Parsed :=
  if data.length < HEADER_SIZE + 2 then none
  else
    let header := data.take HEADER_SIZE
    let mv := bytesToNat ((data.drop 8).take 1)
    let checksum := bytesToNat ((data.drop HEADER_SIZE).take 2)
    let payload := data.drop (HEADER_SIZE + 2)
    if computeChecksum (header ++ payload) = checksum then
      some { deviceId := bytesToNat (data.take 2),
             seq := bytesToNat ((data.drop 2).take 2),
             tsSent := bytesToNat ((data.drop 4).take 4),
             version := mv / 16 % 16,
             msgType := mv % 16,
             payload := payload }
    else none

/-- Payload reading extraction from `main` (lines 278-287): for each declared
reading index, keep the 12-byte chunk only when it lies fully inside the
payload; truncated trailing readings are skipped. -/
def extractReadings (payload : List Nat) (count : Nat) : List (List Nat) :=
  (List.range count).filterMap (fun i =>
    if 1 + (i + 1) * 12 ≤ payload.length then
      some ((payload.drop (1 + i * 12)).take 12)
    else none)

/-- Reading extraction guarded as in the code: only DATA packets (type 1)
with a non-empty payload are decoded; the first payload byte is the count. -/
def parseReadings (msgType : Nat) (payload : List Nat) : List (List Nat) :=
  if msgType = 1 ∧ 0 < payload.length then extractReadings payload (payload.headD 0)
  else []

/-- `int(relative_arrival * 1000) & 0xFFFFFFFF`: mask the relative arrival
milliseconds into the 32-bit domain (Python `&` on ints is `% 2^32` here). -/
def maskArrivalMs (relMs : Int) : Int := relMs % 2 ^ 32

/-- Latency computation from `main` (lines 292-296): masked arrival ms minus
the embedded send timestamp, corrected by `2^32` below `-2^31`, clamped at 0. -/
def computeLatency (relMs : Int) (tsSent : Nat) : Int :=
  let lat0 : Int := maskArrivalMs relMs - (tsSent : Int)
  let lat1 : Int := if lat0 < -2147483648 then lat0 + 4294967296 else lat0
  max 0 lat1

/-- Latency of a packet arriving at wall-clock millisecond `t`. -/
def arrivalLatency (t : Int) (tsSent : Nat) : Int :=
  computeLatency (t - TIMESTAMP_OFFSET_MS) tsSent

/-- Jitter computation from `main` (lines 298-300): absolute latency delta,
but 0 whenever the stored previous latency is not positive. -/
def arrivalJitter (lastLatency lat : Int) : Int :=
  if 0 < lastLatency then |lat - lastLatency| else 0

/-- Latency formula as worded by the specification (claim C8): receiver's
relative-epoch milliseconds minus sender's embedded milliseconds, both in
the 32-bit truncated domain, with `2^32` added when the raw signed
difference is more negative than `−2^31`, negative remainders clamped to
zero.  Kept separate from `computeLatency` so the two can be compared. -/
def claimLatency (recvMs sendMs : Nat) : Int :=
  let d : Int := (recvMs : Int) - (sendMs : Int)
  let d' : Int := if d < -(2 ^ 31) then d + 2 ^ 32 else d
  max 0 d'

/-- Fresh per-device state created on first sighting (lines 246-256). -/
def initialDeviceState (arrivalTime : Int) : DeviceState :=
  { buffer := [], lastLatency := 0, lastProcessedSeq := none, processedSeqs := [],
    lastSeen := arrivalTime, statusAlive := true,
    received := 0, duplicates := 0, gaps := 0 }

/-- Comparison used by `buffer.sort(key=lambda x: x['timestamp_sent'])`. -/
def sendTimeLe (a b : Entry) : Bool := a.timestampSent ≤ b.timestampSent

/-- Insert an entry after every current entry whose send time is not
larger (so equal keys keep their existing order, as in a stable sort). -/
def insertEntry (e : Entry) : List Entry → List Entry
  | [] => [e]
  | x :: xs => if sendTimeLe x e then x :: insertEntry e xs else e :: x :: xs

/-- Stable sort of the pending buffer by send time.  Python's `list.sort`
is a stable sort by the key; inserting each entry in arrival order after
all entries with a key not larger computes exactly that stable sort, with
structural recursion the kernel can evaluate. -/
def sortBuffer (l : List Entry) : List Entry :=
  l.foldl (fun acc e => insertEntry e acc) []

/-- The `while len(buffer) > flush_threshold: pop(0); process` loop (lines
326-328).  Returns the final state, the remaining buffer and the finalized
entries in finalization order. -/
def drainBuffer (threshold : Nat) : DeviceState → List Entry → DeviceState × List Entry × List Entry
  | s, [] => (s, [], [])
  | s, p :: rest =>
    if threshold < rest.length + 1 then
      let r1 := processAndLogPacket s p
      let r2 := drainBuffer threshold r1.1 rest
      (r2.1, r2.2.1, r1.2 :: r2.2.2)
    else (s, p :: rest, [])

/-- Process every entry of a list in order (the forced-flush loops of the
liveness sweep and of shutdown). -/
def flushAll : DeviceState → List Entry → DeviceState × List Entry
  | s, [] => (s, [])
  | s, p :: rest =>
    let r1 := processAndLogPacket s p
    let r2 := flushAll r1.1 rest
    (r2.1, r1.2 :: r2.2)

/-- One liveness-sweep visit of a single device (lines 185-202): an alive
device silent beyond the timeout is marked dead and its whole buffer is
sorted by send time and force-finalized. -/
def sweepDevice (timeout now : Int) (s : DeviceState) : DeviceState × List Entry :=
  if s.statusAlive = true ∧ timeout < now - s.lastSeen then
    let s1 : DeviceState := { s with statusAlive := false }
    if 0 < s1.buffer.length then
      flushAll { s1 with buffer := [] } (sortBuffer s1.buffer)
    else (s1, [])
  else (s, [])

/-- Shutdown drain for one device (lines 334-338): sort the buffer by send
time and finalize every entry. -/
def shutdownFlush (s : DeviceState) : DeviceState × List Entry :=
  let sorted := sortBuffer s.buffer
  flushAll { s with buffer := sorted } sorted

/-- The per-datagram work of the receive loop for the addressed device
(lines 246-328), given a successfully parsed datagram: refresh liveness,
apply an INIT reset, compute latency/jitter, build and buffer the entry,
re-sort and drain.  Returns the new state, the entries finalized by the
drain, and the entry that was created for this datagram. -/
def arrivalStep (threshold : Nat) (s0 : Option DeviceState) (t : Int) (pkt : Parsed) :
    DeviceState × List Entry × Entry :=
  let sa := s0.getD (initialDeviceState t)
  let sb : DeviceState := { sa with lastSeen := t, statusAlive := true }
  let sc : DeviceState :=
    if pkt.msgType = 0 then
      { sb with processedSeqs := [], lastProcessedSeq := none, duplicates := 0 }
    else sb
  let lat := arrivalLatency t pkt.tsSent
  let jit := arrivalJitter sc.lastLatency lat
  let sd : DeviceState := { sc with lastLatency := lat }
  let entry : Entry :=
    { deviceId := pkt.deviceId, seq := pkt.seq, timestampSent := pkt.tsSent,
      arrivalTime := t, latency := lat, jitter := jit,
      duplicate := false, gapDetected := false, gapCount := 0,
      readings := parseReadings pkt.msgType pkt.payload }
  let buf := sortBuffer (sd.buffer ++ [entry])
  let r := drainBuffer threshold sd buf
  ({ r.1 with buffer := r.2.1 }, r.2.2, entry)

/-- One receive-loop iteration for the addressed device: a datagram that
fails the length or checksum guard is dropped (`continue`) with no state
change and nothing finalized. -/
def deviceIteration (threshold : Nat) (s : Option DeviceState) (t : Int) (data : List Nat) :
    Option DeviceState × List Entry :=
  match parseDatagram data with
  | none => (s, [])
  | some pkt =>
    let r := arrivalStep threshold s t pkt
    (some r.1, r.2.1)

/-- A minimal finalization-input entry used for concrete scenarios. -/
def mkTestEntry (q : Nat) : Entry :=
  { deviceId := 1, seq := q, timestampSent := 0, arrivalTime := 0, latency := 0,
    jitter := 0, duplicate := false, gapDetected := false, gapCount := 0, readings := [] }

/-- Finalize a list of sequence numbers in order, starting from a state. -/
def finalizeAll (s : DeviceState) (seqs : List Nat) : DeviceState :=
  List.foldl (fun st q => (processAndLogPacket st (mkTestEntry q)).1) s seqs

/-- A datagram with a valid length but a wrong embedded checksum: header
bytes sum to 7 while the embedded checksum field reads 2313. -/
def badDatagram : List Nat := [0, 1, 0, 5, 0, 0, 0, 0, 1, 9, 9]

/-- A concrete device state with non-zero counters, used to exhibit that a
dropped datagram changes nothing. -/
def testState : DeviceState :=
  { buffer := [], lastLatency := 7, lastProcessedSeq := some 9, processedSeqs := [9],
    lastSeen := 3, statusAlive := true, received := 5, duplicates := 1, gaps := 2 }

/-- A HEARTBEAT datagram already parsed, used for concrete scenarios. -/
def mkPkt (q ts : Nat) : Parsed :=
  { deviceId := 3, seq := q, tsSent := ts, version := 0, msgType := 2, payload := [] }

/-- An alive device state with two buffered out-of-order entries (send
times 40 then 10), last seen at time 0. -/
def staleState : DeviceState :=
  { buffer :=
      [{ deviceId := 2, seq := 4, timestampSent := 40, arrivalTime := 0, latency := 1, jitter := 0,
         duplicate := false, gapDetected := false, gapCount := 0, readings := [] },
       { deviceId := 2, seq := 5, timestampSent := 10, arrivalTime := 0, latency := 2, jitter := 1,
         duplicate := false, gapDetected := false, gapCount := 0, readings := [] }],
    lastLatency := 2, lastProcessedSeq := some 5, processedSeqs := [4, 5], lastSeen := 0,
    statusAlive := true, received := 2, duplicates := 0, gaps := 0 }

/-! ## Frame lemmas shared by the claim theorems -/

theorem processAndLogPacket_state_frame (s : DeviceState) (p : Entry) :
    (processAndLogPacket s p).1.lastSeen = s.lastSeen ∧
    (processAndLogPacket s p).1.statusAlive = s.statusAlive ∧
    (processAndLogPacket s p).1.lastLatency = s.lastLatency ∧
    (processAndLogPacket s p).1.buffer = s.buffer := by
  unfold processAndLogPacket
  dsimp only
  split
  · exact ⟨rfl, rfl, rfl, rfl⟩
  · split <;> exact ⟨rfl, rfl, rfl, rfl⟩

theorem processAndLogPacket_entry_frame (s : DeviceState) (p : Entry) :
    (processAndLogPacket s p).2.timestampSent = p.timestampSent ∧
    (processAndLogPacket s p).2.latency = p.latency ∧
    (processAndLogPacket s p).2.jitter = p.jitter ∧
    (processAndLogPacket s p).2.seq = p.seq := by
  unfold processAndLogPacket
  dsimp only
  split
  · exact ⟨rfl, rfl, rfl, rfl⟩
  · split <;> exact ⟨rfl, rfl, rfl, rfl⟩

theorem drainBuffer_length (threshold : Nat) (s : DeviceState) (l : List Entry) :
    (drainBuffer threshold s l).2.1.length ≤ threshold := by
  induction l generalizing s with
  | nil => simp [drainBuffer]
  | cons p rest ih =>
    unfold drainBuffer
    split
    · exact ih _
    · rename_i h
      simp only [List.length_cons]
      omega

theorem drainBuffer_append (threshold : Nat) (s : DeviceState) (l : List Entry) :
    (drainBuffer threshold s l).2.2.map Entry.timestampSent ++
      (drainBuffer threshold s l).2.1.map Entry.timestampSent
      = l.map Entry.timestampSent := by
  induction l generalizing s with
  | nil => simp [drainBuffer]
  | cons p rest ih =>
    unfold drainBuffer
    split
    · simp only [List.map_cons, List.cons_append]
      rw [(processAndLogPacket_entry_frame s p).1, ih]
    · simp [drainBuffer]

theorem drainBuffer_state_frame (threshold : Nat) (s : DeviceState) (l : List Entry) :
    (drainBuffer threshold s l).1.lastSeen = s.lastSeen ∧
    (drainBuffer threshold s l).1.statusAlive = s.statusAlive ∧
    (drainBuffer threshold s l).1.lastLatency = s.lastLatency := by
  induction l generalizing s with
  | nil => exact ⟨rfl, rfl, rfl⟩
  | cons p rest ih =>
    unfold drainBuffer
    split
    · have h1 := processAndLogPacket_state_frame s p
      have h2 := ih (processAndLogPacket s p).1
      exact ⟨h2.1.trans h1.1, h2.2.1.trans h1.2.1, h2.2.2.trans h1.2.2.1⟩
    · exact ⟨rfl, rfl, rfl⟩

theorem flushAll_map (s : DeviceState) (l : List Entry) :
    (flushAll s l).2.map Entry.timestampSent = l.map Entry.timestampSent ∧
    (flushAll s l).2.length = l.length := by
  induction l generalizing s with
  | nil => exact ⟨rfl, rfl⟩
  | cons p rest ih =>
    unfold flushAll
    have h1 := processAndLogPacket_entry_frame s p
    have h2 := ih (processAndLogPacket s p).1
    simp only [List.map_cons, List.length_cons]
    exact ⟨by rw [h1.1, h2.1], by rw [h2.2]⟩

theorem flushAll_state_frame (s : DeviceState) (l : List Entry) :
    (flushAll s l).1.statusAlive = s.statusAlive ∧
    (flushAll s l).1.buffer = s.buffer := by
  induction l generalizing s with
  | nil => exact ⟨rfl, rfl⟩
  | cons p rest ih =>
    unfold flushAll
    have h1 := processAndLogPacket_state_frame s p
    have h2 := ih (processAndLogPacket s p).1
    exact ⟨h2.1.trans h1.2.1, h2.2.trans h1.2.2.2⟩

theorem insertEntry_length (e : Entry) (l : List Entry) :
    (insertEntry e l).length = l.length + 1 := by
  induction l with
  | nil => rfl
  | cons x xs ih =>
    unfold insertEntry
    split
    · simp [ih]
    · simp

theorem insertEntry_mem (a e : Entry) (l : List Entry) :
    a ∈ insertEntry e l ↔ a = e ∨ a ∈ l := by
  induction l with
  | nil => simp [insertEntry]
  | cons x xs ih =>
    unfold insertEntry
    split
    · simp only [List.mem_cons, ih]
      tauto
    · simp only [List.mem_cons]

theorem insertEntry_pairwise (e : Entry) (l : List Entry)
    (h : l.Pairwise (fun a b => sendTimeLe a b = true)) :
    (insertEntry e l).Pairwise (fun a b => sendTimeLe a b = true) := by
  induction l with
  | nil => simp [insertEntry]
  | cons x xs ih =>
    unfold insertEntry
    rw [List.pairwise_cons] at h
    split
    · rename_i hxe
      rw [List.pairwise_cons]
      refine ⟨?_, ih h.2⟩
      intro b hb
      rcases (insertEntry_mem b e xs).mp hb with h1 | h2
      · rw [h1]
        exact hxe
      · exact h.1 b h2
    · rename_i hxe
      rw [List.pairwise_cons]
      refine ⟨?_, List.pairwise_cons.mpr h⟩
      intro b hb
      rcases List.mem_cons.mp hb with h1 | h2
      · rw [h1]
        simp only [sendTimeLe, decide_eq_true_eq] at hxe ⊢
        omega
      · have hxb := h.1 b h2
        simp only [sendTimeLe, decide_eq_true_eq] at hxe hxb ⊢
        omega

theorem sortBuffer_go_pairwise (l : List Entry) :
    ∀ acc, acc.Pairwise (fun a b => sendTimeLe a b = true) →
      (l.foldl (fun acc e => insertEntry e acc) acc).Pairwise
        (fun a b => sendTimeLe a b = true) := by
  induction l with
  | nil => exact fun acc h => h
  | cons x xs ih => exact fun acc h => ih _ (insertEntry_pairwise x acc h)

theorem sortBuffer_pairwise (l : List Entry) :
    (sortBuffer l).Pairwise (fun a b => sendTimeLe a b = true) :=
  sortBuffer_go_pairwise l [] (by simp)

theorem sortBuffer_go_length (l : List Entry) :
    ∀ acc, (l.foldl (fun acc e => insertEntry e acc) acc).length
      = l.length + acc.length := by
  induction l with
  | nil => simp
  | cons x xs ih =>
    intro acc
    rw [List.foldl_cons, ih, insertEntry_length]
    simp only [List.length_cons]
    omega

theorem sortBuffer_length (l : List Entry) : (sortBuffer l).length = l.length := by
  unfold sortBuffer
  rw [sortBuffer_go_length]
  simp


theorem processAndLogPacket_nondup (s : DeviceState) (p : Entry)
    (h : s.processedSeqs.contains p.seq = false) :
    (processAndLogPacket s p).2.duplicate = false ∧
    (processAndLogPacket s p).1.lastProcessedSeq = some p.seq ∧
    (processAndLogPacket s p).1.processedSeqs
      = dequeAppend DEQUE_MAXLEN s.processedSeqs p.seq := by
  unfold processAndLogPacket
  dsimp only
  rw [h]
  simp only [Bool.false_eq_true, if_false]
  split <;> simp

theorem classifySeq_late (seq last : Nat)
    (hneg : (seq : Int) - (last : Int) < 0)
    (hwrap : -(30000 : Int) ≤ (seq : Int) - (last : Int)) :
    classifySeq (some last) seq = (false, 0) := by
  unfold classifySeq
  dsimp only
  rw [if_neg, if_neg]
  · omega
  · unfold WRAP_THRESHOLD
    omega

theorem finalizeAll_range (n : Nat) (hn : 1 ≤ n) :
    (finalizeAll (initialDeviceState 0) (List.range n)).processedSeqs
        = (List.range n).drop (n - DEQUE_MAXLEN) ∧
    (finalizeAll (initialDeviceState 0) (List.range n)).lastProcessedSeq = some (n - 1) := by
  induction n with
  | zero => omega
  | succ n ih =>
    by_cases h1 : n = 0
    · subst h1
      exact ⟨by decide, by decide⟩
    · have ih' := ih (by omega)
      have hstep : finalizeAll (initialDeviceState 0) (List.range (n + 1))
          = (processAndLogPacket (finalizeAll (initialDeviceState 0) (List.range n))
              (mkTestEntry n)).1 := by
        unfold finalizeAll
        rw [List.range_succ, List.foldl_append]
        rfl
      have hnm : n ∉ (List.range n).drop (n - DEQUE_MAXLEN) := fun hm =>
        absurd (List.mem_range.mp (List.mem_of_mem_drop hm)) (lt_irrefl n)
      have hcont : (finalizeAll (initialDeviceState 0) (List.range n)).processedSeqs.contains n
          = false := by
        rw [ih'.1]
        simp [List.contains, hnm]
      have hp := processAndLogPacket_nondup (finalizeAll (initialDeviceState 0) (List.range n))
        (mkTestEntry n) hcont
      have harith : dequeAppend DEQUE_MAXLEN ((List.range n).drop (n - DEQUE_MAXLEN)) n
          = (List.range (n + 1)).drop (n + 1 - DEQUE_MAXLEN) := by
        unfold dequeAppend
        dsimp only
        rw [← List.drop_append_of_le_length (by simp)]
        rw [List.drop_drop]
        rw [← List.range_succ]
        congr 1
        simp only [List.length_drop, List.length_append, List.length_range, List.length_cons,
          List.length_nil]
        unfold DEQUE_MAXLEN
        omega
      constructor
      · rw [hstep, hp.2.2, ih'.1]
        exact harith
      · rw [hstep, hp.2.1]
        simp only [mkTestEntry, Nat.add_sub_cancel]

/-! ## Claim C1 -/

/-- C1, counterexample: after finalizing sequence 100 the device has
`last_processed_seq = 100`; finalizing the older non-duplicate sequence 50
(raw diff −50, above the −30000 wraparound threshold) is not flagged as a
duplicate, yet `last_processed_seq` moves backward to 50 with no INIT
reset involved — contradicting the claim that it is left unchanged. -/
theorem C1_counterexample :
    (processAndLogPacket (initialDeviceState 0) (mkTestEntry 100)).1.lastProcessedSeq = some 100 ∧
    (processAndLogPacket
        (processAndLogPacket (initialDeviceState 0) (mkTestEntry 100)).1
        (mkTestEntry 50)).2.duplicate = false ∧
    (processAndLogPacket
        (processAndLogPacket (initialDeviceState 0) (mkTestEntry 100)).1
        (mkTestEntry 50)).1.lastProcessedSeq = some 50 := by
  exact ⟨by decide, by decide, by decide⟩

/-- C1, amended: when a finalized non-duplicate packet is older than
`last_processed_seq` (raw signed diff negative but not below −30000), no
gap or duplicate is flagged and the gap counter is unchanged, but
`last_processed_seq` is unconditionally overwritten with the older
sequence — it does move backward without an INIT reset. -/
theorem C1_theorem (s : DeviceState) (p : Entry) (last : Nat)
    (hdup : s.processedSeqs.contains p.seq = false)
    (hlast : s.lastProcessedSeq = some last)
    (hneg : (p.seq : Int) - (last : Int) < 0)
    (hwrap : -(30000 : Int) ≤ (p.seq : Int) - (last : Int)) :
    (processAndLogPacket s p).1.lastProcessedSeq = some p.seq ∧
    (processAndLogPacket s p).2.duplicate = false ∧
    (processAndLogPacket s p).2.gapDetected = false ∧
    (processAndLogPacket s p).2.gapCount = 0 ∧
    (processAndLogPacket s p).1.gaps = s.gaps := by
  have hcls := classifySeq_late p.seq last hneg hwrap
  unfold processAndLogPacket
  dsimp only
  rw [hdup]
  simp [hlast, hcls]

/-- C1, witness: the amended theorem applied at the concrete late-arrival
scenario (last 100, then 50). -/
theorem C1_witness :
    (processAndLogPacket
        (processAndLogPacket (initialDeviceState 0) (mkTestEntry 100)).1
        (mkTestEntry 50)).1.lastProcessedSeq = some 50 ∧
    (processAndLogPacket
        (processAndLogPacket (initialDeviceState 0) (mkTestEntry 100)).1
        (mkTestEntry 50)).2.duplicate = false := by
  have h := C1_theorem (processAndLogPacket (initialDeviceState 0) (mkTestEntry 100)).1
    (mkTestEntry 50) 100 (by decide) (by decide) (by decide) (by decide)
  exact ⟨h.1, h.2.1⟩

/-! ## Claim C4 -/

/-- C4, counterexample: a device whose `last_processed_seq` is 65535
finalizing non-duplicate sequence 2 takes the wraparound path with
`real_diff = 3 > 1`, so the packet is classified as a wraparound gap with
`gap_detected = true` and `gap_count = 2` (sequences 0 and 1 missing) — not
`InOrder` with no gap as the claim states. -/
theorem C4_counterexample :
    (processAndLogPacket (initialDeviceState 0) (mkTestEntry 65535)).1.lastProcessedSeq
      = some 65535 ∧
    (processAndLogPacket
        (processAndLogPacket (initialDeviceState 0) (mkTestEntry 65535)).1
        (mkTestEntry 2)).2.gapDetected = true ∧
    (processAndLogPacket
        (processAndLogPacket (initialDeviceState 0) (mkTestEntry 65535)).1
        (mkTestEntry 2)).2.gapCount = 2 := by
  exact ⟨by decide, by decide, by decide⟩

/-- C4, amended: for any device state with `last_processed_seq = 65535`
finalizing the non-duplicate sequence 2, the wraparound branch fires
(`real_diff = 2 + 65536 − 65535 = 3`) and the packet is classified as a
wraparound gap with `gap_count = real_diff − 1 = 2`;
`last_processed_seq` becomes 2. -/
theorem C4_theorem (s : DeviceState) (p : Entry)
    (hseq : p.seq = 2)
    (hdup : s.processedSeqs.contains p.seq = false)
    (hlast : s.lastProcessedSeq = some 65535) :
    (processAndLogPacket s p).2.gapDetected = true ∧
    (processAndLogPacket s p).2.gapCount = 2 ∧
    (processAndLogPacket s p).2.duplicate = false ∧
    (processAndLogPacket s p).1.lastProcessedSeq = some 2 := by
  have hcls : classifySeq (some 65535) 2 = (true, 2) := by decide
  unfold processAndLogPacket
  dsimp only
  rw [hdup]
  simp [hlast, hseq, hcls]

/-- C4, witness: the amended theorem applied at the concrete state reached
by finalizing sequence 65535 from a fresh device state. -/
theorem C4_witness :
    (processAndLogPacket
        (processAndLogPacket (initialDeviceState 0) (mkTestEntry 65535)).1
        (mkTestEntry 2)).2.gapDetected = true ∧
    (processAndLogPacket
        (processAndLogPacket (initialDeviceState 0) (mkTestEntry 65535)).1
        (mkTestEntry 2)).2.gapCount = 2 ∧
    (processAndLogPacket
        (processAndLogPacket (initialDeviceState 0) (mkTestEntry 65535)).1
        (mkTestEntry 2)).1.lastProcessedSeq = some 2 := by
  have h := C4_theorem (processAndLogPacket (initialDeviceState 0) (mkTestEntry 65535)).1
    (mkTestEntry 2) (by decide) (by decide) (by decide)
  exact ⟨h.1, h.2.1, h.2.2.2⟩

/-! ## Claim C5 -/

/-- C5, counterexample: finalize sequences 0,1,…,500 (501 distinct
packets) from a fresh device; the bounded 500-entry history evicts
sequence 0, so re-finalizing 0 is not classified as a duplicate — and it
even moves `last_processed_seq` back to 0 — contradicting the claim's
"regardless of how many packets have been finalized since". -/
theorem C5_counterexample :
    (finalizeAll (initialDeviceState 0) (List.range 501)).processedSeqs.contains 0 = false ∧
    (processAndLogPacket (finalizeAll (initialDeviceState 0) (List.range 501))
        (mkTestEntry 0)).2.duplicate = false ∧
    (processAndLogPacket (finalizeAll (initialDeviceState 0) (List.range 501))
        (mkTestEntry 0)).1.lastProcessedSeq = some 0 := by
  have hps := (finalizeAll_range 501 (by omega)).1
  have hcont : (finalizeAll (initialDeviceState 0) (List.range 501)).processedSeqs.contains 0
      = false := by
    rw [hps]
    have h0 : (0 : Nat) ∉ (List.range 501).drop (501 - DEQUE_MAXLEN) := by decide
    simp [List.contains, h0]
  have hp := processAndLogPacket_nondup (finalizeAll (initialDeviceState 0) (List.range 501))
    (mkTestEntry 0) hcont
  exact ⟨hcont, hp.1, hp.2.1⟩

/-- C5, amended: re-finalizing a sequence that is still present in the
bounded finalized-sequence history is always classified `Duplicate`,
increments the duplicate counter, and changes neither
`last_processed_seq` nor the history; but the history keeps only the 500
most recent non-duplicate sequences, so a sequence finalized more than 500
distinct finalizations ago has been evicted and its re-finalization is not
detected as a duplicate. -/
theorem C5_theorem (s : DeviceState) (p : Entry)
    (h : s.processedSeqs.contains p.seq = true) :
    (processAndLogPacket s p).2.duplicate = true ∧
    (processAndLogPacket s p).1.duplicates = s.duplicates + 1 ∧
    (processAndLogPacket s p).1.lastProcessedSeq = s.lastProcessedSeq ∧
    (processAndLogPacket s p).1.processedSeqs = s.processedSeqs ∧
    (processAndLogPacket s p).2.gapDetected = false := by
  unfold processAndLogPacket
  dsimp only
  rw [h]
  simp

/-- C5, witness: the amended theorem applied to a state whose history
contains sequence 9. -/
theorem C5_witness :
    (processAndLogPacket testState (mkTestEntry 9)).2.duplicate = true ∧
    (processAndLogPacket testState (mkTestEntry 9)).1.duplicates = testState.duplicates + 1 ∧
    (processAndLogPacket testState (mkTestEntry 9)).1.lastProcessedSeq
      = testState.lastProcessedSeq := by
  have h := C5_theorem testState (mkTestEntry 9) (by decide)
  exact ⟨h.1, h.2.1, h.2.2.1⟩


/-! ## Claim C2 -/

/-- C2, counterexample: `badDatagram` has a valid length but embedded
checksum 2313 while the computed checksum is 7; a receive-loop iteration on
it leaves the device state — including the received/duplicate/gap
counters — completely unchanged and finalizes nothing, so the integrity
failure is neither recorded nor counted anywhere, contradicting the claim
that it is "recorded ... and counted". -/
theorem C2_counterexample :
    computeChecksum (badDatagram.take HEADER_SIZE ++ badDatagram.drop (HEADER_SIZE + 2))
      ≠ bytesToNat ((badDatagram.drop HEADER_SIZE).take 2) ∧
    parseDatagram badDatagram = none ∧
    deviceIteration 20 (some testState) 0 badDatagram = (some testState, []) ∧
    testState.received = 5 ∧ testState.duplicates = 1 ∧ testState.gaps = 2 := by
  exact ⟨by decide, by decide, by decide, rfl, rfl, rfl⟩

/-- C2, amended: a datagram whose computed checksum differs from the
embedded checksum is dropped before any state mutation — it is excluded
from sequence/gap/latency analysis, but it is not recorded or counted:
the device state (all counters included) is unchanged and nothing is
finalized; only a console message is printed. -/
theorem C2_theorem (threshold : Nat) (s : Option DeviceState) (t : Int) (data : List Nat)
    (hlen : HEADER_SIZE + 2 ≤ data.length)
    (hbad : computeChecksum (data.take HEADER_SIZE ++ data.drop (HEADER_SIZE + 2))
        ≠ bytesToNat ((data.drop HEADER_SIZE).take 2)) :
    deviceIteration threshold s t data = (s, []) := by
  have hparse : parseDatagram data = none := by
    unfold parseDatagram
    rw [if_neg (Nat.not_lt.mpr hlen)]
    dsimp only
    rw [if_neg hbad]
  unfold deviceIteration
  rw [hparse]

/-- C2, witness: the amended theorem applied to `badDatagram` and a state
with non-zero counters. -/
theorem C2_witness :
    deviceIteration 20 (some testState) 3 badDatagram = (some testState, []) :=
  C2_theorem 20 (some testState) 3 badDatagram (by decide) (by decide)

/-! ## Claim C8 -/

/-- C8: the implemented latency computation coincides with the claim's
formula — receiver relative-epoch milliseconds truncated to 32 bits minus
the embedded sender milliseconds, `2^32` added when the raw signed
difference is below `−2^31`, negatives clamped to zero — and the
wraparound instance sender = 4294967290, receiver = 5 yields latency 11. -/
theorem C8_theorem (t : Int) (tsSent : Nat) (_hts : tsSent < 2 ^ 32) :
    arrivalLatency t tsSent
      = claimLatency ((t - TIMESTAMP_OFFSET_MS) % 2 ^ 32).toNat tsSent ∧
    arrivalLatency (TIMESTAMP_OFFSET_MS + 5) 4294967290 = 11 := by
  constructor
  · unfold arrivalLatency computeLatency maskArrivalMs claimLatency
    dsimp only
    have h1 : (0 : Int) ≤ (t - TIMESTAMP_OFFSET_MS) % 2 ^ 32 :=
      Int.emod_nonneg _ (by norm_num)
    rw [Int.toNat_of_nonneg h1]
    norm_num
  · decide

/-- C8, witness: the theorem applied at the claim's own wraparound
instance (receiver relative ms 5, sender ms 4294967290). -/
theorem C8_witness :
    (4294967290 : Nat) < 2 ^ 32 ∧
    arrivalLatency (TIMESTAMP_OFFSET_MS + 5) 4294967290
      = claimLatency ((TIMESTAMP_OFFSET_MS + 5 - TIMESTAMP_OFFSET_MS) % 2 ^ 32).toNat 4294967290 ∧
    arrivalLatency (TIMESTAMP_OFFSET_MS + 5) 4294967290 = 11 :=
  ⟨by decide, (C8_theorem (TIMESTAMP_OFFSET_MS + 5) 4294967290 (by decide)).1,
   (C8_theorem (TIMESTAMP_OFFSET_MS + 5) 4294967290 (by decide)).2⟩

/-! ## Claim C9 -/

theorem filterMap_range_if {β : Type} (g : Nat → β) (a : Nat) :
    ∀ n, (List.range n).filterMap (fun i => if i < a then some (g i) else none)
      = (List.range (min n a)).map g
  | 0 => by simp
  | (n + 1) => by
    rw [List.range_succ, List.filterMap_append, filterMap_range_if g a n]
    by_cases h : n < a
    · have h1 : min (n + 1) a = min n a + 1 := by omega
      have h2 : min n a = n := by omega
      rw [h1, List.range_succ, List.map_append]
      simp [h, h2]
    · have h1 : min (n + 1) a = min n a := by omega
      simp [h, h1]

theorem extractReadings_eq (c : Nat) (rest : List Nat) :
    extractReadings (c :: rest) c
      = (List.range (min c (rest.length / 12))).map
          (fun i => ((c :: rest).drop (1 + i * 12)).take 12) := by
  have hfun : (fun i => if 1 + (i + 1) * 12 ≤ (c :: rest).length
        then some (((c :: rest).drop (1 + i * 12)).take 12) else none)
      = (fun i => if i < rest.length / 12
        then some (((c :: rest).drop (1 + i * 12)).take 12) else none) := by
    funext i
    apply if_congr _ rfl rfl
    simp only [List.length_cons]
    omega
  unfold extractReadings
  rw [hfun, filterMap_range_if]

/-- C9: for a DATA packet whose declared reading count `c` exceeds the
readings actually present (`rest.length / 12` full 12-byte chunks fit),
parsing returns exactly the fully contained readings, in order, skipping
the declared-but-truncated trailing ones; the packet itself is still
buffered with those readings rather than dropped (the entry built by
`arrivalStep` carries them). -/
theorem C9_theorem (c : Nat) (rest : List Nat)
    (hover : rest.length / 12 < c) :
    parseReadings 1 (c :: rest)
      = (List.range (rest.length / 12)).map
          (fun i => ((c :: rest).drop (1 + i * 12)).take 12) ∧
    (parseReadings 1 (c :: rest)).length = rest.length / 12 ∧
    (∀ threshold s0 t pkt,
      (arrivalStep threshold s0 t pkt).2.2.readings = parseReadings pkt.msgType pkt.payload) := by
  have h1 : parseReadings 1 (c :: rest) = extractReadings (c :: rest) c := by
    unfold parseReadings
    rw [if_pos ⟨rfl, by simp⟩]
    rfl
  have h2 := extractReadings_eq c rest
  have hmin : min c (rest.length / 12) = rest.length / 12 := by omega
  rw [hmin] at h2
  refine ⟨h1.trans h2, ?_, ?_⟩
  · rw [h1.trans h2]
    simp
  · intro threshold s0 t pkt
    rfl

/-- C9, witness: a payload declaring 5 readings over 13 bytes keeps
exactly the single fully contained reading. -/
theorem C9_witness :
    (List.range 13).length / 12 < 5 ∧
    parseReadings 1 (5 :: List.range 13)
      = (List.range ((List.range 13).length / 12)).map
          (fun i => ((5 :: List.range 13).drop (1 + i * 12)).take 12) :=
  ⟨by decide, (C9_theorem 5 (List.range 13) (by decide)).1⟩

theorem arrivalStep_state (threshold : Nat) (s0 : Option DeviceState) (t : Int) (pkt : Parsed) :
    (arrivalStep threshold s0 t pkt).1.lastSeen = t ∧
    (arrivalStep threshold s0 t pkt).1.statusAlive = true ∧
    (arrivalStep threshold s0 t pkt).1.lastLatency = arrivalLatency t pkt.tsSent := by
  unfold arrivalStep
  dsimp only
  split
  all_goals exact ⟨(drainBuffer_state_frame _ _ _).1, (drainBuffer_state_frame _ _ _).2.1,
    (drainBuffer_state_frame _ _ _).2.2⟩

theorem arrivalStep_entry (threshold : Nat) (s0 : Option DeviceState) (t : Int) (pkt : Parsed) :
    (arrivalStep threshold s0 t pkt).2.2.latency = arrivalLatency t pkt.tsSent ∧
    (arrivalStep threshold s0 t pkt).2.2.jitter
      = arrivalJitter (s0.getD (initialDeviceState t)).lastLatency (arrivalLatency t pkt.tsSent) ∧
    (arrivalStep threshold s0 t pkt).2.2.timestampSent = pkt.tsSent ∧
    (arrivalStep threshold s0 t pkt).2.2.seq = pkt.seq := by
  unfold arrivalStep
  dsimp only
  split
  · exact ⟨rfl, rfl, rfl, rfl⟩
  · exact ⟨rfl, rfl, rfl, rfl⟩

theorem arrivalStep_buffer (threshold : Nat) (s0 : Option DeviceState) (t : Int) (pkt : Parsed) :
    (arrivalStep threshold s0 t pkt).1.buffer.length ≤ threshold ∧
    ((arrivalStep threshold s0 t pkt).2.1.map Entry.timestampSent ++
        (arrivalStep threshold s0 t pkt).1.buffer.map Entry.timestampSent).Pairwise (· ≤ ·) := by
  unfold arrivalStep
  dsimp only
  split
  all_goals refine ⟨drainBuffer_length _ _ _, ?_⟩
  all_goals rw [drainBuffer_append]
  all_goals exact (sortBuffer_pairwise _).map Entry.timestampSent (fun a b h => by simpa [sendTimeLe] using h)

/-! ## Claim C10 -/

/-- C10: at every checksum-valid arrival — before buffering, finalization
or the duplicate check, and so regardless of whether the packet will later
be classified Duplicate — the device's `last_seen` is set to the arrival
time, its liveness status is set to alive, and `last_latency` is
overwritten with this packet's latency; consequently the jitter of the
next arriving packet of that device is determined by this packet's
latency. -/
theorem C10_theorem :
    (∀ threshold s0 t pkt,
        (arrivalStep threshold s0 t pkt).1.lastSeen = t ∧
        (arrivalStep threshold s0 t pkt).1.statusAlive = true ∧
        (arrivalStep threshold s0 t pkt).1.lastLatency = arrivalLatency t pkt.tsSent ∧
        (arrivalStep threshold s0 t pkt).2.2.jitter
          = arrivalJitter (s0.getD (initialDeviceState t)).lastLatency
              (arrivalLatency t pkt.tsSent)) ∧
    (∀ threshold threshold' s0 t pkt t' pkt',
        (arrivalStep threshold' (some (arrivalStep threshold s0 t pkt).1) t' pkt').2.2.jitter
          = arrivalJitter (arrivalLatency t pkt.tsSent) (arrivalLatency t' pkt'.tsSent)) := by
  constructor
  · intro threshold s0 t pkt
    exact ⟨(arrivalStep_state threshold s0 t pkt).1, (arrivalStep_state threshold s0 t pkt).2.1,
      (arrivalStep_state threshold s0 t pkt).2.2, (arrivalStep_entry threshold s0 t pkt).2.1⟩
  · intro threshold threshold' s0 t pkt t' pkt'
    rw [(arrivalStep_entry threshold' (some (arrivalStep threshold s0 t pkt).1) t' pkt').2.1]
    simp only [Option.getD_some]
    rw [(arrivalStep_state threshold s0 t pkt).2.2]

/-! ## Claim C3 -/

/-- C3, amended: latency and jitter are computed at raw arrival, before
the packet enters the reordering buffer, and are carried through
finalization unchanged; jitter equals the absolute difference between the
packet's latency and the latency of the previously arrived (not
previously finalized) packet of the same device whenever that stored
latency is positive, and is 0 otherwise — in particular 0 on the device's
first arrival. -/
theorem C3_theorem :
    (∀ threshold s0 t pkt,
        (arrivalStep threshold s0 t pkt).2.2.latency = arrivalLatency t pkt.tsSent ∧
        (arrivalStep threshold s0 t pkt).2.2.jitter
          = arrivalJitter (s0.getD (initialDeviceState t)).lastLatency
              (arrivalLatency t pkt.tsSent)) ∧
    (∀ s p, (processAndLogPacket s p).2.latency = p.latency ∧
        (processAndLogPacket s p).2.jitter = p.jitter) ∧
    (∀ threshold t pkt, (arrivalStep threshold none t pkt).2.2.jitter = 0) := by
  refine ⟨?_, ?_, ?_⟩
  · intro threshold s0 t pkt
    exact ⟨(arrivalStep_entry threshold s0 t pkt).1, (arrivalStep_entry threshold s0 t pkt).2.1⟩
  · intro s p
    exact ⟨(processAndLogPacket_entry_frame s p).2.1, (processAndLogPacket_entry_frame s p).2.2.1⟩
  · intro threshold t pkt
    rw [(arrivalStep_entry threshold none t pkt).2.1]
    rfl

/-- C3, counterexample: with flush threshold 1, a packet with send time
2000 (latency 5) arrives, then a packet with send time 1000 (latency 2000)
arrives and is immediately finalized as the device's very first finalized
packet; the claim requires the first finalized sample's jitter to be 0,
but its recorded jitter is 1995 = |2000 − 5|, computed at arrival against
the previously arrived packet. -/
theorem C3_counterexample :
    (arrivalStep 1 none (TIMESTAMP_OFFSET_MS + 2005) (mkPkt 1 2000)).2.1 = [] ∧
    ((arrivalStep 1
        (some (arrivalStep 1 none (TIMESTAMP_OFFSET_MS + 2005) (mkPkt 1 2000)).1)
        (TIMESTAMP_OFFSET_MS + 3000) (mkPkt 2 1000)).2.1.map Entry.seq = [2]) ∧
    ((arrivalStep 1
        (some (arrivalStep 1 none (TIMESTAMP_OFFSET_MS + 2005) (mkPkt 1 2000)).1)
        (TIMESTAMP_OFFSET_MS + 3000) (mkPkt 2 1000)).2.1.map Entry.latency = [2000]) ∧
    ((arrivalStep 1
        (some (arrivalStep 1 none (TIMESTAMP_OFFSET_MS + 2005) (mkPkt 1 2000)).1)
        (TIMESTAMP_OFFSET_MS + 3000) (mkPkt 2 1000)).2.1.map Entry.jitter = [1995]) := by
  exact ⟨by decide, by decide, by decide, by decide⟩

/-! ## Claim C6 -/

/-- C6: after each arrival is processed the pending buffer holds at most
`flush_threshold` entries; the entries finalized by the drain, followed by
the remaining buffer, are jointly sorted by send time (so the drain always
pops the smallest send time, in ascending order); and in the concrete
scenario with send times [10,30,20] arriving in that order under
threshold 2, the full finalization order (drain then shutdown flush) is
[10,20,30]. -/
theorem C6_theorem :
    (∀ threshold s0 t pkt, (arrivalStep threshold s0 t pkt).1.buffer.length ≤ threshold) ∧
    (∀ threshold s0 t pkt,
        ((arrivalStep threshold s0 t pkt).2.1.map Entry.timestampSent ++
            (arrivalStep threshold s0 t pkt).1.buffer.map Entry.timestampSent).Pairwise
          (· ≤ ·)) ∧
    ((arrivalStep 2 none (TIMESTAMP_OFFSET_MS + 100) (mkPkt 1 10)).2.1.map Entry.timestampSent
        ++ (arrivalStep 2
              (some (arrivalStep 2 none (TIMESTAMP_OFFSET_MS + 100) (mkPkt 1 10)).1)
              (TIMESTAMP_OFFSET_MS + 200) (mkPkt 2 30)).2.1.map Entry.timestampSent
        ++ (arrivalStep 2
              (some (arrivalStep 2
                  (some (arrivalStep 2 none (TIMESTAMP_OFFSET_MS + 100) (mkPkt 1 10)).1)
                  (TIMESTAMP_OFFSET_MS + 200) (mkPkt 2 30)).1)
              (TIMESTAMP_OFFSET_MS + 300) (mkPkt 3 20)).2.1.map Entry.timestampSent
        ++ (shutdownFlush (arrivalStep 2
              (some (arrivalStep 2
                  (some (arrivalStep 2 none (TIMESTAMP_OFFSET_MS + 100) (mkPkt 1 10)).1)
                  (TIMESTAMP_OFFSET_MS + 200) (mkPkt 2 30)).1)
              (TIMESTAMP_OFFSET_MS + 300) (mkPkt 3 20)).1).2.map Entry.timestampSent
      = [10, 20, 30]) := by
  refine ⟨?_, ?_, by decide⟩
  · intro threshold s0 t pkt
    exact (arrivalStep_buffer threshold s0 t pkt).1
  · intro threshold s0 t pkt
    exact (arrivalStep_buffer threshold s0 t pkt).2

/-! ## Claim C7 -/

/-- C7: an alive device silent beyond the timeout is marked dead by the
sweep, and at that transition its entire pending buffer — regardless of
the flush threshold — is emptied and finalized in send-time order; a
device already dead is left untouched by the sweep (so the dead-marking
happens exactly once until traffic resumes); and any checksum-valid
packet arrival marks the device alive again. -/
theorem C7_theorem :
    (∀ timeout now s, s.statusAlive = true → timeout < now - s.lastSeen →
        (sweepDevice timeout now s).1.statusAlive = false ∧
        (sweepDevice timeout now s).1.buffer = [] ∧
        (sweepDevice timeout now s).2.map Entry.timestampSent
          = (sortBuffer s.buffer).map Entry.timestampSent ∧
        ((sweepDevice timeout now s).2.map Entry.timestampSent).Pairwise (· ≤ ·) ∧
        (sweepDevice timeout now s).2.length = s.buffer.length) ∧
    (∀ timeout now s, s.statusAlive = false → sweepDevice timeout now s = (s, [])) ∧
    (∀ threshold s0 t pkt, (arrivalStep threshold s0 t pkt).1.statusAlive = true) := by
  refine ⟨?_, ?_, ?_⟩
  · intro timeout now s h1 h2
    unfold sweepDevice
    rw [if_pos ⟨h1, h2⟩]
    dsimp only
    by_cases hb : 0 < s.buffer.length
    · rw [if_pos hb]
      have hst := flushAll_state_frame
        { s with statusAlive := false, buffer := [] } (sortBuffer s.buffer)
      have hmp := flushAll_map
        { s with statusAlive := false, buffer := [] } (sortBuffer s.buffer)
      refine ⟨hst.1, hst.2, hmp.1, ?_, ?_⟩
      · rw [hmp.1]
        exact (sortBuffer_pairwise _).map Entry.timestampSent (fun a b h => by simpa [sendTimeLe] using h)
      · rw [hmp.2]
        exact sortBuffer_length _
    · rw [if_neg hb]
      have hbe : s.buffer = [] := List.length_eq_zero.mp (by omega)
      refine ⟨rfl, hbe, ?_, ?_, ?_⟩
      · rw [hbe]
        rfl
      · simp
      · rw [hbe]
  · intro timeout now s h
    unfold sweepDevice
    rw [if_neg]
    intro hc
    rw [h] at hc
    exact absurd hc.1 (by simp)
  · intro threshold s0 t pkt
    exact (arrivalStep_state threshold s0 t pkt).2.1


/-- C7, witness: the sweep at time 20 with timeout 10 on `staleState`
(alive, last seen 0, two buffered entries with send times 40 and 10)
marks it dead and flushes both entries in send-time order. -/
theorem C7_witness :
    (sweepDevice 10 20 staleState).1.statusAlive = false ∧
    (sweepDevice 10 20 staleState).1.buffer = [] ∧
    (sweepDevice 10 20 staleState).2.map Entry.timestampSent
      = (sortBuffer staleState.buffer).map Entry.timestampSent ∧
    (sweepDevice 10 20 staleState).2.length = staleState.buffer.length := by
  have h := C7_theorem.1 10 20 staleState rfl (by decide)
  exact ⟨h.1, h.2.1, h.2.2.1, h.2.2.2.2⟩
